import Mathlib

/-!
Verification of the ChatGPDune backend (`src/ChatGPDune/backend/app.py`,
with `src/RAG/simple_rag.py` as the earlier variant of the same handler).

The Python handler is embedded shallowly: the vector store and the language
model are oracles supplied through an `Env` record, exceptions become
`Except`, dictionaries become association lists, and the `/chat` handler is
a pure function from an environment and a request to a response paired with
the list of external calls (retrieval, model invocation) it performed.
-/

namespace ChatGPDune

/-! ## Response post-processor (`process_model_response`)

`process_model_response` runs
`re.sub(r"<think>.*?</think>", "", response, flags=re.DOTALL).strip()`
for models configured with `remove_thinking`.  The regex is embedded as a
left-to-right scan: at each position, the non-greedy pattern matches iff
the opening marker starts there and the closing marker occurs later; the
match extends to the nearest closing marker. -/

/-- Characters of the opening marker `<think>` removed by
`process_model_response` in `app.py`. -/
def thinkOpen : List Char := "<think>".data

/-- Characters of the closing marker `</think>`. -/
def thinkClose : List Char := "</think>".data

/-- Python `str.strip()`: drop leading and trailing whitespace. -/
def pyStrip (cs : List Char) : List Char :=
  ((cs.dropWhile Char.isWhitespace).reverse.dropWhile Char.isWhitespace).reverse

/-- Scan for the first occurrence of the closing marker and return the
characters after it; `none` when the closing marker does not occur, in which
case the regex match attempt fails. -/
def dropToClose : List Char → Option (List Char)
  | [] => none
  | c :: rest =>
    if thinkClose <+: (c :: rest) then some ((c :: rest).drop thinkClose.length)
    else dropToClose rest

theorem dropToClose_length_lt : ∀ {cs r : List Char}, dropToClose cs = some r →
    r.length < cs.length := by
  intro cs
  induction cs with
  | nil => intro r h; simp [dropToClose] at h
  | cons c rest ih =>
    intro r h
    rw [dropToClose] at h
    split at h
    · cases h
      simp [thinkClose]
      omega
    · have := ih h
      simp
      omega

/-- The substitution `re.sub(r"<think>.*?</think>", "", ·, flags=re.DOTALL)`:
scan left to right; where the opening marker starts and a closing marker
follows, delete through the nearest closing marker and continue after it;
where the opening marker starts but no closing marker follows, no match is
possible anywhere later (the closing marker cannot begin inside the opening
one), so the remainder is kept. -/
def removeThink : List Char → List Char
  | [] => []
  | c :: rest =>
    if thinkOpen <+: (c :: rest) then
      match h : dropToClose ((c :: rest).drop thinkOpen.length) with
      | some rest2 => removeThink rest2
      | none => c :: rest
    else c :: removeThink rest
termination_by cs => cs.length
decreasing_by
  · have h1 := dropToClose_length_lt h
    have h2 : ((c :: rest).drop thinkOpen.length).length ≤ (c :: rest).length := by
      simp
    simp only [List.length_cons] at *
    omega
  · simp

/-- Configuration record for an entry of `AVAILABLE_MODELS`. -/
structure ModelConfig where
  name : String
  model_id : String
  description : String
  remove_thinking : Bool
deriving DecidableEq

/-- The sole configured model (`deepseek-r1`); also the value of
`AVAILABLE_MODELS[DEFAULT_MODEL]`. -/
def deepseekConfig : ModelConfig :=
  { name := "DeepSeek R1"
    model_id := "deepseek-r1"
    description := "Advanced reasoning model"
    remove_thinking := true }

/-- The `AVAILABLE_MODELS` dictionary of `app.py` (every entry except
`deepseek-r1` is commented out in the source). -/
def AVAILABLE_MODELS : List (String × ModelConfig) :=
  [("deepseek-r1", deepseekConfig)]

/-- The `DEFAULT_MODEL` constant. -/
def DEFAULT_MODEL : String := "deepseek-r1"

/-- Python `AVAILABLE_MODELS.get(model_id, AVAILABLE_MODELS[DEFAULT_MODEL])`. -/
def lookupModel (model_id : String) : ModelConfig :=
  (AVAILABLE_MODELS.lookup model_id).getD deepseekConfig

/-- The `process_model_response` function of `app.py`: for models configured
with `remove_thinking` (which is every resolvable model), strip the
`<think>`…`</think>` spans and trim whitespace. -/
def process_model_response (response : String) (model_id : String) : String :=
  let model_config := lookupModel model_id
  if model_config.remove_thinking then ⟨pyStrip (removeThink response.data)⟩
  else response

theorem lookupModel_remove_thinking (model_id : String) :
    (lookupModel model_id).remove_thinking = true := by
  unfold lookupModel AVAILABLE_MODELS
  simp [List.lookup]
  split <;> rfl

/-- A well-formed marker pair occurs in the text: the regex
`<think>.*?</think>` (with DOTALL) has a match. -/
def HasThinkPair (cs : List Char) : Prop :=
  ∃ a b c, cs = a ++ (thinkOpen ++ (b ++ (thinkClose ++ c)))

theorem noPair_of_short {cs : List Char} (h : cs.length < 15) :
    ¬ HasThinkPair cs := by
  rintro ⟨a, b, c, rfl⟩
  simp only [List.length_append] at h
  rw [show thinkOpen.length = 7 from rfl, show thinkClose.length = 8 from rfl] at h
  omega

theorem noPair_of_no_open {cs : List Char} (h : ¬ thinkOpen <:+: cs) :
    ¬ HasThinkPair cs := by
  rintro ⟨a, b, c, rfl⟩
  exact h ⟨a, b ++ (thinkClose ++ c), by simp⟩

theorem dropToClose_sound : ∀ {cs r : List Char}, dropToClose cs = some r →
    ∃ x, cs = x ++ (thinkClose ++ r) := by
  intro cs
  induction cs with
  | nil => intro r h; simp [dropToClose] at h
  | cons c rest ih =>
    intro r h
    rw [dropToClose] at h
    split at h
    · rename_i hpre
      cases h
      obtain ⟨t, ht⟩ := hpre
      refine ⟨[], ?_⟩
      rw [List.nil_append, ← ht, List.drop_left]
    · obtain ⟨x, hx⟩ := ih h
      exact ⟨c :: x, by rw [hx]; rfl⟩

/-- If no well-formed pair occurs in the text, the substitution leaves it
unchanged. -/
theorem removeThink_eq_self {cs : List Char} (h : ¬ HasThinkPair cs) :
    removeThink cs = cs := by
  induction cs using removeThink.induct with
  | case1 => rw [removeThink]
  | case2 c rest hpre rest2 heq ih =>
    exfalso
    apply h
    obtain ⟨t, ht⟩ := hpre
    obtain ⟨x, hx⟩ := dropToClose_sound heq
    have ht2 : (c :: rest) = thinkOpen ++ ((c :: rest).drop thinkOpen.length) := by
      rw [← ht, List.drop_left]
    refine ⟨[], x, rest2, ?_⟩
    rw [List.nil_append]
    conv_lhs => rw [ht2, hx]
  | case3 c rest hpre heq =>
    rw [removeThink, if_pos hpre]
    split
    · rename_i rest2 heq2
      rw [heq2] at heq
      cases heq
    · rfl
  | case4 c rest hpre ih =>
    rw [removeThink, if_neg hpre, ih]
    intro ⟨a, b, d, hd⟩
    exact h ⟨c :: a, b, d, by rw [hd]; rfl⟩

/-- A pattern with no proper border cannot begin strictly inside a clean
segment `s` that is followed by text starting with the pattern itself. -/
theorem no_start_inside {p : List Char} (s r : List Char)
    (hb : ∀ k, k < p.length → 0 < k → p.drop k ≠ p.take (p.drop k).length)
    (hs : ¬ p <:+: s) (hr : p <+: r) :
    ∀ i, i < s.length → ¬ p <+: ((s ++ r).drop i) := by
  intro i hi hcontra
  have hdrop : (s ++ r).drop i = s.drop i ++ r := by
    rw [List.drop_append_eq_append_drop, Nat.sub_eq_zero_of_le (le_of_lt hi),
      List.drop_zero]
  rw [hdrop] at hcontra
  obtain ⟨w, hw⟩ := hcontra
  have hulen : (s.drop i).length = s.length - i := List.length_drop i s
  by_cases hle : p.length ≤ (s.drop i).length
  · -- the pattern fits inside the clean segment: contradiction with `hs`
    apply hs
    have h1 := congrArg (List.take p.length) hw
    rw [List.take_append_eq_append_take, Nat.sub_self, List.take_zero,
      List.append_nil, List.take_length] at h1
    rw [List.take_append_eq_append_take, Nat.sub_eq_zero_of_le hle,
      List.take_zero, List.append_nil] at h1
    have h2 := List.take_prefix p.length (s.drop i)
    rw [← h1] at h2
    exact h2.isInfix.trans (List.drop_suffix i s).isInfix
  · -- the pattern straddles the boundary: a proper border of `p` arises
    have hlt : (s.drop i).length < p.length := Nat.lt_of_not_le hle
    have h2 := congrArg (List.drop (s.drop i).length) hw
    rw [List.drop_append_eq_append_drop,
      Nat.sub_eq_zero_of_le (le_of_lt hlt), List.drop_zero] at h2
    rw [List.drop_append_eq_append_drop, Nat.sub_self, List.drop_zero,
      List.drop_length, List.nil_append] at h2
    -- h2 : p.drop (s.drop i).length ++ w = r
    obtain ⟨v, hv⟩ := hr
    have h3 : p.drop (s.drop i).length ++ w = p ++ v := h2.trans hv.symm
    have h5 := congrArg (List.take (p.drop (s.drop i).length).length) h3
    rw [List.take_append_eq_append_take, Nat.sub_self, List.take_zero,
      List.append_nil, List.take_length] at h5
    rw [List.take_append_eq_append_take,
      Nat.sub_eq_zero_of_le (by rw [List.length_drop]; omega), List.take_zero,
      List.append_nil] at h5
    have hipos : 0 < (s.drop i).length := by omega
    exact hb (s.drop i).length hlt hipos h5

theorem thinkOpen_no_border :
    ∀ k, k < thinkOpen.length → 0 < k →
      thinkOpen.drop k ≠ thinkOpen.take (thinkOpen.drop k).length := by decide

theorem thinkClose_no_border :
    ∀ k, k < thinkClose.length → 0 < k →
      thinkClose.drop k ≠ thinkClose.take (thinkClose.drop k).length := by decide

/-- Scanning a segment in which the closing marker never begins reaches the
closing marker that follows it and returns the text after that marker. -/
theorem dropToClose_clean (t w : List Char)
    (h : ∀ i, i < t.length → ¬ thinkClose <+: ((t ++ (thinkClose ++ w)).drop i)) :
    dropToClose (t ++ (thinkClose ++ w)) = some w := by
  induction t with
  | nil =>
    rw [List.nil_append]
    have hne : thinkClose ++ w = '<' :: ("/think>".data ++ w) := rfl
    rw [hne, dropToClose, ← hne, if_pos ⟨w, rfl⟩, List.drop_left]
  | cons c t2 ih =>
    have h0 : ¬ thinkClose <+: (c :: (t2 ++ (thinkClose ++ w))) := by
      have := h 0 (by simp)
      simpa using this
    rw [List.cons_append, dropToClose, if_neg h0]
    exact ih (fun i hi => by
      have := h (i + 1) (by simp; omega)
      simpa using this)

/-- Scanning a segment in which the opening marker never begins keeps the
segment and continues on the rest of the text. -/
theorem removeThink_append (s r : List Char)
    (h : ∀ i, i < s.length → ¬ thinkOpen <+: ((s ++ r).drop i)) :
    removeThink (s ++ r) = s ++ removeThink r := by
  induction s with
  | nil => simp
  | cons c s2 ih =>
    have h0 : ¬ thinkOpen <+: (c :: (s2 ++ r)) := by
      have := h 0 (by simp)
      simpa using this
    rw [List.cons_append, removeThink, if_neg h0, List.cons_append]
    rw [ih (fun i hi => by
      have := h (i + 1) (by simp; omega)
      simpa using this)]

/-- One step of the scan at a text headed by the opening marker whose body is
free of the closing marker: the whole delimited span is removed. -/
theorem removeThink_cons_pair (t w : List Char) (hno : ¬ thinkClose <:+: t) :
    removeThink (thinkOpen ++ (t ++ (thinkClose ++ w))) = removeThink w := by
  have hx : thinkOpen ++ (t ++ (thinkClose ++ w)) =
      '<' :: ("think>".data ++ (t ++ (thinkClose ++ w))) := rfl
  rw [hx, removeThink, ← hx, if_pos ⟨t ++ (thinkClose ++ w), rfl⟩]
  have hdrop : (thinkOpen ++ (t ++ (thinkClose ++ w))).drop thinkOpen.length =
      t ++ (thinkClose ++ w) := List.drop_left _ _
  have hclose : dropToClose ((thinkOpen ++ (t ++ (thinkClose ++ w))).drop thinkOpen.length) =
      some w := by
    rw [hdrop]
    exact dropToClose_clean t w
      (no_start_inside t (thinkClose ++ w) thinkClose_no_border hno ⟨w, rfl⟩)
  split
  · rename_i rest2 heq
    rw [heq] at hclose
    cases hclose
    rfl
  · rename_i heq
    rw [heq] at hclose
    cases hclose

/-- Build a text from `n` well-formed marker pairs: each entry contributes a
clean run, an opening marker, a span body and a closing marker; the final
component is the trailing text. -/
def buildSegs : List (List Char × List Char) → List Char → List Char
  | [], tail => tail
  | st :: rest, tail =>
    st.1 ++ (thinkOpen ++ (st.2 ++ (thinkClose ++ buildSegs rest tail)))

/-- The concatenation of the clean runs between the marker pairs. -/
def stripParts : List (List Char × List Char) → List Char
  | [] => []
  | st :: rest => st.1 ++ stripParts rest

/-- On a text built of `n` well-formed marker pairs, the substitution removes
exactly the `n` delimited spans (markers inclusive). -/
theorem removeThink_buildSegs (segs : List (List Char × List Char))
    (tail : List Char)
    (hseg : ∀ st ∈ segs, ¬ thinkOpen <:+: st.1 ∧ ¬ thinkClose <:+: st.2)
    (htail : ¬ thinkOpen <:+: tail) :
    removeThink (buildSegs segs tail) = stripParts segs ++ tail := by
  induction segs with
  | nil =>
    rw [buildSegs, stripParts, List.nil_append,
      removeThink_eq_self (noPair_of_no_open htail)]
  | cons st rest ih =>
    obtain ⟨h1, h2⟩ := hseg st (List.mem_cons_self st rest)
    rw [buildSegs, removeThink_append st.1 _
      (no_start_inside st.1 _ thinkOpen_no_border h1
        ⟨st.2 ++ (thinkClose ++ buildSegs rest tail), rfl⟩),
      removeThink_cons_pair st.2 _ h2,
      ih (fun p hp => hseg p (List.mem_cons_of_mem st hp)), stripParts,
      List.append_assoc]

/-! ## The `/chat` route handler

`chat` in `app.py` is embedded as a pure function over an environment
holding the two external collaborators: the Neo4j vector store (possibly
uninitialized, possibly failing) and the Ollama model invocation (possibly
failing).  The function additionally returns the ordered list of external
calls it made, so that short-circuiting can be stated. -/

/-- Python `str.lower()` (ASCII case folding). -/
def pyLower (s : String) : String := ⟨s.data.map Char.toLower⟩

/-- Python `needle in haystack` on strings: substring containment. -/
def pyContains (haystack needle : String) : Bool :=
  decide (needle.data <:+: haystack.data)

/-- Python `d.get(key, dflt)` on a string-valued dictionary. -/
def dictGet (d : List (String × String)) (key dflt : String) : String :=
  (d.lookup key).getD dflt

/-- Python `sep.join(parts)`. -/
def pyJoin (sep : String) : List String → String
  | [] => ""
  | [part] => part
  | part :: rest => part ++ sep ++ pyJoin sep rest

/-- A LangChain document returned by `similarity_search_with_score`. -/
structure Doc where
  page_content : String
  metadata : List (String × String)

/-- A chunk dictionary as built by `retrieve_relevant_chunks`:
`{"text": …, "score": …, "metadata": …}`.  `score` is an `Option` so that
the absent-key case of `chunk.get("score")` is representable. -/
structure Chunk where
  text : String
  score : Option ℚ
  metadata : List (String × String)
deriving DecidableEq

/-- The request body (`Message` pydantic model of `app.py`). -/
structure Message where
  text : String
  use_rag : Bool := true
  model : Option String := some DEFAULT_MODEL

/-- The two external collaborators of the handler.  `vectorStore = none`
models an uninitialized store; an `Except.error` result models a raised
exception. -/
structure Env where
  vectorStore : Option (String → Nat → Except String (List (Doc × ℚ)))
  invoke : String → Except String String

/-- External calls performed while handling a request. -/
inductive Effect where
  | retrievalCall (query : String) (top_k : Nat)
  | modelCall (full_prompt : String)
deriving DecidableEq

/-- The `retrieve_relevant_chunks` function of `app.py`: returns `[]` when
the store is uninitialized or the similarity search raises; otherwise wraps
each scored document as a chunk dictionary. -/
def retrieve_relevant_chunks (env : Env) (query : String) (top_k : Nat) :
    List Chunk × List Effect :=
  let chunks :=
    match env.vectorStore with
    | none => []
    | some search =>
      match search query top_k with
      | Except.ok results =>
        results.map (fun r =>
          { text := r.1.page_content, score := some r.2, metadata := r.1.metadata })
      | Except.error _ => []
  (chunks, [Effect.retrievalCall query top_k])

/-- Segment of `BASE_PROMPT` before the `model_name` placeholder. -/
def BASE_PROMPT_pre : String :=
  "Your name is ChatGPDune.You were created by Sortphy.You are a chatbot based on the "

/-- Segment of `BASE_PROMPT` between the `model_name` and `context`
placeholders. -/
def BASE_PROMPT_mid1 : String :=
  " model, ran locally with Ollama.You are an expert on the Dune universe by Frank Herbert. Always answer questions strictly based on the Dune books and lore. Try to stick to the Dune theme and ChatGPDune info, but dont hesitate to answer questions about other topics if you can, but always try to answer them in a Dune way.Give short answers, trying not to go over three sentences, unless the question requires more detail, then feel free to go over.Be objective and factual, avoiding personal opinions or interpretations, unless you are asked for your personal opinion.Be concise and to the point, focusing on the core of the question, if you can answer a question with few words, do it, do not extend yourself more than needed, unless you believe it\x27s necessary.If a question is unclear, ask for clarification.\n\nYou can use markdown formatting (headers, lists, code blocks, etc.) when it would make your response clearer and more readable. Avoind using bold when not necessary.If you feel that the user is being friendly, be friendly and engaging in your responses. You can use a bit of humor, but always keep it appropriate and relevant to the Dune universe and always be objetive and factual. You main priority is to answer the user\x27s question.\n\nUse the following context from the Dune universe to answer the question:\nCONTEXT:\n"

/-- Segment of `BASE_PROMPT` between the `context` and `question`
placeholders. -/
def BASE_PROMPT_mid2 : String := "\n\nQuestion: "

/-- Segment of `BASE_PROMPT` after the `question` placeholder. -/
def BASE_PROMPT_post : String := "\n\nAnswer based on the provided context:"

/-- `BASE_PROMPT.format(model_name=…, context=…, question=…)`: each of the
three placeholders occurs exactly once in the template, so formatting is
concatenation of the four literal segments around the three values. -/
def basePromptFormat (model_name context question : String) : String :=
  BASE_PROMPT_pre ++ model_name ++ BASE_PROMPT_mid1 ++ context ++
    BASE_PROMPT_mid2 ++ question ++ BASE_PROMPT_post

/-- Source annotation appended to a chunk text in the context block. -/
def source_info_of (metadata : List (String × String)) : String :=
  if metadata ≠ [] then
    let source_file := dictGet metadata "source_file" ""
    let source_type := dictGet metadata "source_type" ""
    if source_file ≠ "" then " [Source: " ++ source_file ++ "]"
    else if source_type ≠ "" then " [Source: " ++ source_type ++ "]"
    else ""
  else ""

/-- The placeholder context used when retrieval produced nothing. -/
def NO_CONTEXT : String :=
  "No specific context found in the Dune database for this query."

/-- The context block assembled from the retrieved chunks. -/
def contextOf (relevant_chunks : List Chunk) : String :=
  if relevant_chunks ≠ [] then
    pyJoin "\n\n" (relevant_chunks.map (fun chunk =>
      chunk.text ++ source_info_of chunk.metadata))
  else NO_CONTEXT

/-- Validation of the requested model id (`message.model if message.model in
AVAILABLE_MODELS else DEFAULT_MODEL`; `None` is not a key). -/
def resolveModelId (model : Option String) : String :=
  match model with
  | some m => if (AVAILABLE_MODELS.lookup m).isSome then m else DEFAULT_MODEL
  | none => DEFAULT_MODEL

/-- The chunks the handler works with: retrieval is skipped when the request
disabled RAG. -/
def chatChunks (env : Env) (message : Message) : List Chunk × List Effect :=
  if message.use_rag then retrieve_relevant_chunks env message.text 5
  else ([], [])

/-- The full prompt assembled for a request that passed the trigger check. -/
def chatPrompt (env : Env) (message : Message) : String :=
  basePromptFormat (lookupModel (resolveModelId message.model)).name
    (contextOf (chatChunks env message).1) message.text

/-- Python `round(q, 4)` on an exact value: round half to even at the fourth
decimal place. -/
def pyRound4 (q : ℚ) : ℚ :=
  let scaled := q * 10000
  let n := ⌊scaled⌋
  let frac := scaled - n
  let rounded : ℤ :=
    if frac < 1/2 then n
    else if 1/2 < frac then n + 1
    else if n % 2 = 0 then n else n + 1
  (rounded : ℚ) / 10000

/-- Python `text[:150] + "..." if len(text) > 150 else text`. -/
def previewOf (text : String) : String :=
  if text.length > 150 then ⟨text.data.take 150⟩ ++ "..." else text

/-- One entry of the `sources` list of the response. -/
structure SourceData where
  id : Nat
  content : String
  score : Option ℚ
  preview : String
  file : String
  source_type : String
deriving DecidableEq

/-- Entry `i` of the `sources` list: note the score is reported only when the
Python value `chunk.get("score")` is truthy, i.e. present and nonzero. -/
def buildSource (i : Nat) (chunk : Chunk) : SourceData :=
  { id := i + 1
    content := chunk.text
    score :=
      match chunk.score with
      | some s => if s ≠ 0 then some (pyRound4 s) else none
      | none => none
    preview := previewOf chunk.text
    file :=
      if chunk.metadata ≠ [] then dictGet chunk.metadata "source_file" "Unknown"
      else "Database chunk"
    source_type :=
      if chunk.metadata ≠ [] then dictGet chunk.metadata "source_type" "local"
      else "unknown" }

/-- One entry of the legacy `top_sources` list. -/
def topSourceOf (chunk : Chunk) : String :=
  if chunk.metadata ≠ [] then
    dictGet chunk.metadata "source_file" "Unknown" ++ " (" ++
      dictGet chunk.metadata "source_type" "local" ++ ")"
  else "Database chunk"

/-- The JSON response of the `/chat` endpoint; keys absent on a given path
are `none`. -/
structure ChatResponse where
  reply : String
  model_used : String
  model_name : Option String
  rag_used : Bool
  sources_used : Nat
  sources : Option (List SourceData)
  top_sources : Option (List String)

/-- Python `message.model or DEFAULT_MODEL` (used on the error path). -/
def pyOrDefault (model : Option String) : String :=
  match model with
  | some m => if m ≠ "" then m else DEFAULT_MODEL
  | none => DEFAULT_MODEL

/-- The fixed apology of the error path. -/
def APOLOGY : String :=
  "I encountered an error processing your question. Please try again."

/-- The `/chat` handler of `app.py`.  Returns the response together with the
ordered list of external calls performed. -/
def chat (env : Env) (message : Message) : ChatResponse × List Effect :=
  let model_id := resolveModelId message.model
  let model_config := lookupModel model_id
  if pyContains (pyLower message.text) "glauco" then
    ({ reply := "Glauco."
       model_used := model_id
       model_name := none
       rag_used := false
       sources_used := 0
       sources := none
       top_sources := none }, [])
  else
    let rc := chatChunks env message
    let relevant_chunks := rc.1
    let full_prompt :=
      basePromptFormat model_config.name (contextOf relevant_chunks) message.text
    match env.invoke full_prompt with
    | Except.ok response =>
      let reply_text := process_model_response response model_id
      ({ reply := reply_text
         model_used := model_id
         model_name := some model_config.name
         rag_used := !relevant_chunks.isEmpty
         sources_used := relevant_chunks.length
         sources :=
           if relevant_chunks ≠ [] then
             some (relevant_chunks.enum.map (fun p => buildSource p.1 p.2))
           else none
         top_sources :=
           if relevant_chunks ≠ [] then
             some ((relevant_chunks.take 3).map topSourceOf)
           else none },
       rc.2 ++ [Effect.modelCall full_prompt])
    | Except.error _ =>
      ({ reply := APOLOGY
         model_used := pyOrDefault message.model
         model_name := none
         rag_used := false
         sources_used := 0
         sources := none
         top_sources := none },
       rc.2 ++ [Effect.modelCall full_prompt])

/-! ## Claims about the response post-processor -/

theorem process_eq_of_noPair (response : List Char) (model_id : String)
    (h : ¬ HasThinkPair response) :
    process_model_response ⟨response⟩ model_id = ⟨pyStrip response⟩ := by
  simp only [process_model_response, lookupModel_remove_thinking, if_true]
  rw [removeThink_eq_self h]

/-- C6: the response post-processor maps an input containing no well-formed
start/end marker pair to the input with only leading and trailing whitespace
trimmed; and it maps a text built from N well-formed marker pairs to the
text with exactly those N delimited spans (markers inclusive) removed, the
spans crossing newlines freely, again trimmed. -/
theorem claim_c6_post_processor (model_id : String) :
    (∀ response : List Char, ¬ HasThinkPair response →
      process_model_response ⟨response⟩ model_id = ⟨pyStrip response⟩) ∧
    (∀ segs tail,
      (∀ st ∈ segs, ¬ thinkOpen <:+: st.1 ∧ ¬ thinkClose <:+: st.2) →
      ¬ thinkOpen <:+: tail →
      process_model_response ⟨buildSegs segs tail⟩ model_id =
        ⟨pyStrip (stripParts segs ++ tail)⟩) := by
  constructor
  · intro response h
    exact process_eq_of_noPair response model_id h
  · intro segs tail hseg htail
    simp only [process_model_response, lookupModel_remove_thinking, if_true]
    rw [removeThink_buildSegs segs tail hseg htail]

/-- Witness for C6 at concrete inputs: a marker-free padded text is only
trimmed, and a text with two well-formed pairs (one spanning a newline)
loses exactly the two delimited spans. -/
theorem claim_c6_post_processor_witness :
    process_model_response ⟨" padded ".data⟩ "deepseek-r1" =
      ⟨pyStrip " padded ".data⟩ ∧
    process_model_response
        ⟨buildSegs [(" a ".data, " x\ny ".data), ("b".data, "z".data)] " c ".data⟩
        "deepseek-r1" =
      ⟨pyStrip (stripParts [(" a ".data, " x\ny ".data), ("b".data, "z".data)] ++
        " c ".data)⟩ :=
  ⟨(claim_c6_post_processor "deepseek-r1").1 " padded ".data
      (noPair_of_short (by decide)),
    (claim_c6_post_processor "deepseek-r1").2
      [(" a ".data, " x\ny ".data), ("b".data, "z".data)] " c ".data
      (by decide) (by decide)⟩

/-- C7 counterexample: the input `" <think>x"` has an opening marker with no
matching closing marker, yet the post-processor does not leave it unchanged —
the leading space is stripped. -/
theorem claim_c7_counterexample :
    thinkOpen <:+: " <think>x".data ∧
    ¬ HasThinkPair " <think>x".data ∧
    process_model_response " <think>x" "deepseek-r1" ≠ " <think>x" := by
  refine ⟨by decide, noPair_of_short (by decide), ?_⟩
  have h := process_eq_of_noPair " <think>x".data "deepseek-r1"
    (noPair_of_short (by decide))
  rw [h]
  decide

/-- C7 (amended): on an input whose markers are unbalanced or absent — that
is, on which the marker-pair pattern has no match — the post-processor
removes no span; the output is the input with only leading and trailing
whitespace trimmed, and the (total) function returns normally. -/
theorem claim_c7_unbalanced (response : List Char) (model_id : String)
    (h : ¬ HasThinkPair response) :
    removeThink response = response ∧
    process_model_response ⟨response⟩ model_id = ⟨pyStrip response⟩ :=
  ⟨removeThink_eq_self h, process_eq_of_noPair response model_id h⟩

/-- Witness for the amended C7 at a concrete input with a lone opening
marker. -/
theorem claim_c7_unbalanced_witness :
    removeThink " <think>x".data = " <think>x".data ∧
    process_model_response ⟨" <think>x".data⟩ "deepseek-r1" =
      ⟨pyStrip " <think>x".data⟩ :=
  claim_c7_unbalanced " <think>x".data "deepseek-r1" (noPair_of_short (by decide))

/-! ## Helper lemmas about the assembled prompt -/

theorem mem_infix_pyJoin (sep : String) :
    ∀ (parts : List String) (p : String), p ∈ parts →
      p.data <:+: (pyJoin sep parts).data := by
  intro parts
  induction parts with
  | nil => intro p hp; cases hp
  | cons q rest ih =>
    intro p hp
    cases rest with
    | nil =>
      have hq : p = q := by
        cases hp with
        | head => rfl
        | tail _ hmem => cases hmem
      have hjoin : pyJoin sep [q] = q := rfl
      rw [hq, hjoin]
    | cons r rs =>
      have hjoin : pyJoin sep (q :: r :: rs) = q ++ sep ++ pyJoin sep (r :: rs) := rfl
      rw [hjoin]
      cases hp with
      | head =>
        refine ⟨[], (sep ++ pyJoin sep (r :: rs)).data, ?_⟩
        simp [String.data_append]
      | tail _ hmem =>
        have h1 := ih p hmem
        have h2 : (pyJoin sep (r :: rs)).data <:+:
            (q ++ sep ++ pyJoin sep (r :: rs)).data := by
          rw [String.data_append]
          exact (List.suffix_append (q ++ sep).data (pyJoin sep (r :: rs)).data).isInfix
        exact h1.trans h2

theorem context_infix_chatPrompt (env : Env) (message : Message) :
    (contextOf (chatChunks env message).1).data <:+: (chatPrompt env message).data := by
  refine ⟨(BASE_PROMPT_pre ++ (lookupModel (resolveModelId message.model)).name ++
    BASE_PROMPT_mid1).data,
    (BASE_PROMPT_mid2 ++ message.text ++ BASE_PROMPT_post).data, ?_⟩
  simp [chatPrompt, basePromptFormat, String.data_append]

/-- Every retrieved chunk's text is a substring of the prompt the handler
assembles, whenever retrieval produced at least one chunk. -/
theorem chunk_text_infix_chatPrompt (env : Env) (message : Message)
    (chunk : Chunk) (hmem : chunk ∈ (chatChunks env message).1) :
    chunk.text.data <:+: (chatPrompt env message).data := by
  have hne : (chatChunks env message).1 ≠ [] := by
    intro h
    rw [h] at hmem
    cases hmem
  have hpart : (chunk.text ++ source_info_of chunk.metadata).data <:+:
      (contextOf (chatChunks env message).1).data := by
    rw [contextOf, if_pos hne]
    exact mem_infix_pyJoin "\n\n" _ _ (List.mem_map_of_mem _ hmem)
  have htext : chunk.text.data <+:
      (chunk.text ++ source_info_of chunk.metadata).data := by
    rw [String.data_append]
    exact List.prefix_append _ _
  exact (htext.isInfix.trans hpart).trans (context_infix_chatPrompt env message)

/-! ## Concrete fixtures used by witnesses and counterexamples -/

/-- Environment whose two collaborators are both down. -/
def envDead : Env :=
  { vectorStore := none, invoke := fun _ => Except.error "down" }

/-- Environment with an uninitialized vector store but a working model. -/
def envNoStore : Env :=
  { vectorStore := none, invoke := fun _ => Except.ok "Fine." }

/-- Environment whose store raises on every similarity search. -/
def envStoreRaises : Env :=
  { vectorStore := some (fun _ _ => Except.error "Neo4j unreachable")
    invoke := fun _ => Except.ok "Fine." }

/-- Environment retrieving one substantial chunk. -/
def envOneChunk : Env :=
  { vectorStore := some (fun _ _ =>
      Except.ok [({ page_content := "The spice melange.", metadata := [] }, 1/2)])
    invoke := fun _ => Except.ok "Melange." }

/-- Environment retrieving one chunk far below 50 characters. -/
def envShortChunk : Env :=
  { vectorStore := some (fun _ _ =>
      Except.ok [({ page_content := "Spice.", metadata := [] }, 1/2)])
    invoke := fun _ => Except.ok "An answer." }

/-- Environment retrieving a chunk that overlaps the question `who are you`
completely. -/
def envWhoChunk : Env :=
  { vectorStore := some (fun _ _ =>
      Except.ok [({ page_content := "who are you", metadata := [] }, 1)])
    invoke := fun _ => Except.ok "A chatbot." }

def msgGlauco : Message :=
  { text := "Hey GLAUCO, hello", use_rag := true, model := some "deepseek-r1" }

def msgSpice : Message :=
  { text := "What is the spice?", use_rag := true, model := some "deepseek-r1" }

def msgArrakis : Message :=
  { text := "Tell me of Arrakis", use_rag := true, model := some "deepseek-r1" }

def msgWho : Message :=
  { text := "who are you", use_rag := true, model := some "deepseek-r1" }

/-! ## Claims about the `/chat` handler -/

/-- C3: a request whose text contains the trigger word (case-insensitively,
anywhere as a substring) is answered with exactly the fixed literal reply,
and the handler performs no external call at all — neither retrieval nor a
model invocation — because the trigger test precedes both. -/
theorem claim_c3_trigger_short_circuit (env : Env) (message : Message)
    (h : pyContains (pyLower message.text) "glauco" = true) :
    chat env message =
      ({ reply := "Glauco."
         model_used := resolveModelId message.model
         model_name := none
         rag_used := false
         sources_used := 0
         sources := none
         top_sources := none }, []) := by
  simp [chat, h]

/-- Witness for C3: a request mentioning the trigger word in capitals is
short-circuited even though both collaborators would fail. -/
theorem claim_c3_trigger_short_circuit_witness :
    chat envDead msgGlauco =
      ({ reply := "Glauco."
         model_used := resolveModelId msgGlauco.model
         model_name := none
         rag_used := false
         sources_used := 0
         sources := none
         top_sources := none }, []) :=
  claim_c3_trigger_short_circuit envDead msgGlauco (by decide)

theorem retrieve_empty_of_unavailable (env : Env) (query : String) (k : Nat)
    (h : env.vectorStore = none ∨
      ∃ search e, env.vectorStore = some search ∧
        search query k = Except.error e) :
    (retrieve_relevant_chunks env query k).1 = [] := by
  rcases h with h | ⟨search, e, hsome, herr⟩
  · simp [retrieve_relevant_chunks, h]
  · simp [retrieve_relevant_chunks, hsome, herr]

/-- C5: when the vector store is uninitialized, or the similarity search
raises, retrieval returns the empty chunk list instead of propagating the
failure, and the handler still completes normally with `rag_used = false`
and `sources_used = 0`. -/
theorem claim_c5_retrieval_degraded (env : Env) (message : Message)
    (out : String)
    (hng : pyContains (pyLower message.text) "glauco" = false)
    (hrag : message.use_rag = true)
    (hstore : env.vectorStore = none ∨
      ∃ search e, env.vectorStore = some search ∧
        search message.text 5 = Except.error e)
    (hok : env.invoke (chatPrompt env message) = Except.ok out) :
    (retrieve_relevant_chunks env message.text 5).1 = [] ∧
    (chat env message).1.rag_used = false ∧
    (chat env message).1.sources_used = 0 ∧
    (chat env message).1.reply =
      process_model_response out (resolveModelId message.model) := by
  have hempty := retrieve_empty_of_unavailable env message.text 5 hstore
  have hchunks : (chatChunks env message).1 = [] := by
    simp [chatChunks, hrag, hempty]
  rw [chatPrompt, hchunks] at hok
  refine ⟨hempty, ?_⟩
  simp [chat, hng, hchunks, hok]

/-- Witness for C5 at a concrete request against an uninitialized store. -/
theorem claim_c5_retrieval_degraded_witness :
    (retrieve_relevant_chunks envNoStore msgSpice.text 5).1 = [] ∧
    (chat envNoStore msgSpice).1.rag_used = false ∧
    (chat envNoStore msgSpice).1.sources_used = 0 ∧
    (chat envNoStore msgSpice).1.reply =
      process_model_response "Fine." (resolveModelId msgSpice.model) :=
  claim_c5_retrieval_degraded envNoStore msgSpice "Fine." (by decide) rfl
    (Or.inl rfl) rfl

/-- C9: in every `/chat` response — trigger, normal and error path alike —
`rag_used` is `true` exactly when `sources_used` is positive; and on the
normal path `sources_used` equals the number of chunks the retrieval step
produced. -/
theorem claim_c9_rag_used_iff_sources (env : Env) (message : Message) :
    ((chat env message).1.rag_used = true ↔ 0 < (chat env message).1.sources_used) ∧
    (∀ out, pyContains (pyLower message.text) "glauco" = false →
      env.invoke (chatPrompt env message) = Except.ok out →
      (chat env message).1.sources_used = (chatChunks env message).1.length) := by
  constructor
  · by_cases htr : pyContains (pyLower message.text) "glauco" = true
    · simp [chat, htr]
    · rw [Bool.not_eq_true] at htr
      cases hinv : env.invoke (chatPrompt env message) with
      | ok out =>
        rw [chatPrompt] at hinv
        simp [chat, htr, hinv, List.isEmpty_iff, List.length_pos]
      | error e =>
        rw [chatPrompt] at hinv
        simp [chat, htr, hinv]
  · intro out hng hok
    rw [chatPrompt] at hok
    simp [chat, hng, hok]

/-- Witness for C9's normal-path clause at a request retrieving one chunk. -/
theorem claim_c9_rag_used_iff_sources_witness :
    ((chat envOneChunk msgArrakis).1.rag_used = true ↔
      0 < (chat envOneChunk msgArrakis).1.sources_used) ∧
    (chat envOneChunk msgArrakis).1.sources_used =
      (chatChunks envOneChunk msgArrakis).1.length :=
  ⟨(claim_c9_rag_used_iff_sources envOneChunk msgArrakis).1,
    (claim_c9_rag_used_iff_sources envOneChunk msgArrakis).2 "Melange."
      (by decide) rfl⟩

/-- Environment retrieving a chunk but whose model invocation always
raises. -/
def envModelDown : Env :=
  { vectorStore := some (fun _ _ =>
      Except.ok [({ page_content := "The spice melange.", metadata := [] }, 1/2)])
    invoke := fun _ => Except.error "model down" }

/-- Recognizer for model-invocation effects. -/
def isModelCall : Effect → Bool
  | Effect.modelCall _ => true
  | Effect.retrievalCall _ _ => false

/-- C4 counterexample: with a permanently failing model, the handler answers
the apology after a single model invocation — there is no second,
empty-context retry, and the response carries no error flag (the
`ChatResponse` record has no such field). -/
theorem claim_c4_counterexample :
    (chat envModelDown msgSpice).1.reply = APOLOGY ∧
    (chat envModelDown msgSpice).2.countP isModelCall = 1 := by
  constructor
  · rfl
  · rfl

/-- C4 (amended): when the model invocation fails, the handler immediately
returns the fixed apology with `rag_used = false` and `sources_used = 0` —
it does not re-assemble the prompt, does not retry the model call (exactly
one invocation happens), sets no error flag, and, being a total function of
the environment, propagates no exception. -/
theorem claim_c4_failure_no_retry (env : Env) (message : Message) (e : String)
    (hng : pyContains (pyLower message.text) "glauco" = false)
    (hfail : env.invoke (chatPrompt env message) = Except.error e) :
    (chat env message).1 =
      { reply := APOLOGY
        model_used := pyOrDefault message.model
        model_name := none
        rag_used := false
        sources_used := 0
        sources := none
        top_sources := none } ∧
    (chat env message).2.countP isModelCall = 1 := by
  rw [chatPrompt] at hfail
  constructor
  · simp [chat, hng, hfail]
  · simp only [chat, hng, hfail]
    by_cases hrag : message.use_rag = true <;>
      simp [hrag, chatChunks, retrieve_relevant_chunks, List.countP_append,
        List.countP_cons, List.countP_nil, isModelCall]

/-- Witness for the amended C4 at a concrete failing environment. -/
theorem claim_c4_failure_no_retry_witness :
    (chat envModelDown msgArrakis).1 =
      { reply := APOLOGY
        model_used := pyOrDefault msgArrakis.model
        model_name := none
        rag_used := false
        sources_used := 0
        sources := none
        top_sources := none } ∧
    (chat envModelDown msgArrakis).2.countP isModelCall = 1 :=
  claim_c4_failure_no_retry envModelDown msgArrakis "model down" (by decide) rfl

/-- C1 counterexample: retrieval returns a single chunk whose trimmed text
has 6 characters, far below the 50-character minimum the claim describes;
yet the handler reports `sources_used = 1` and `rag_used = true` — there is
no substantiality gate in the code. -/
theorem claim_c1_counterexample :
    (∀ chunk ∈ (chatChunks envShortChunk msgSpice).1,
      (pyStrip chunk.text.data).length < 50) ∧
    (chatChunks envShortChunk msgSpice).1 ≠ [] ∧
    (chat envShortChunk msgSpice).1.sources_used = 1 ∧
    (chat envShortChunk msgSpice).1.rag_used = true := by
  refine ⟨by decide, by decide, ?_, ?_⟩
  · rfl
  · rfl

/-- C1 (amended): the handler applies no minimum-content-length filter.
Whenever retrieval returns chunks — even when every chunk's trimmed text is
shorter than 50 characters — all of them are used: `sources_used` equals the
number of retrieved chunks, `rag_used` is `true`, and every chunk's text is
embedded in the prompt sent to the model. -/
theorem claim_c1_short_chunks_still_used (env : Env) (message : Message)
    (out : String)
    (hng : pyContains (pyLower message.text) "glauco" = false)
    (hok : env.invoke (chatPrompt env message) = Except.ok out)
    (hne : (chatChunks env message).1 ≠ [])
    (hshort : ∀ chunk ∈ (chatChunks env message).1,
      (pyStrip chunk.text.data).length < 50) :
    (chat env message).1.sources_used = (chatChunks env message).1.length ∧
    0 < (chat env message).1.sources_used ∧
    (chat env message).1.rag_used = true ∧
    ∀ chunk ∈ (chatChunks env message).1,
      chunk.text.data <:+: (chatPrompt env message).data := by
  rw [chatPrompt] at hok
  refine ⟨?_, ?_, ?_, chunk_text_infix_chatPrompt env message⟩
  · simp [chat, hng, hok]
  · simp [chat, hng, hok, List.length_pos, hne]
  · simp [chat, hng, hok, List.isEmpty_iff, hne]

/-- Witness for the amended C1 at the short-chunk environment. -/
theorem claim_c1_short_chunks_still_used_witness :
    (chat envShortChunk msgSpice).1.sources_used =
      (chatChunks envShortChunk msgSpice).1.length ∧
    0 < (chat envShortChunk msgSpice).1.sources_used ∧
    (chat envShortChunk msgSpice).1.rag_used = true ∧
    ∀ chunk ∈ (chatChunks envShortChunk msgSpice).1,
      chunk.text.data <:+: (chatPrompt envShortChunk msgSpice).data :=
  claim_c1_short_chunks_still_used envShortChunk msgSpice "An answer."
    (by decide) rfl (by decide) (by decide)

/-- C2 counterexample: the question `who are you` matches the meta-question
pattern of the claim, and the retrieved chunk text equals the question
(100% lexical overlap); yet the chunk text is injected verbatim into the
assembled prompt and `rag_used` is reported `true` — there is no
topic-exclusion filter in the code. -/
theorem claim_c2_counterexample :
    pyContains (pyLower msgWho.text) "glauco" = false ∧
    (chatChunks envWhoChunk msgWho).1.map Chunk.text = ["who are you"] ∧
    "who are you".data <:+: (chatPrompt envWhoChunk msgWho).data ∧
    (chat envWhoChunk msgWho).1.rag_used = true := by
  refine ⟨by decide, by decide, ?_, by rfl⟩
  exact chunk_text_infix_chatPrompt envWhoChunk msgWho
    { text := "who are you", score := some 1, metadata := [] } (by decide)

/-- C2 (amended): the handler has no meta-question filter. For every request
that does not contain the trigger word, the model is invoked with the
assembled prompt, and every retrieved chunk's text — whatever the question,
`who are you` included — is a substring of that prompt. -/
theorem claim_c2_no_topic_exclusion (env : Env) (message : Message)
    (hng : pyContains (pyLower message.text) "glauco" = false) :
    Effect.modelCall (chatPrompt env message) ∈ (chat env message).2 ∧
    ∀ chunk ∈ (chatChunks env message).1,
      chunk.text.data <:+: (chatPrompt env message).data := by
  refine ⟨?_, chunk_text_infix_chatPrompt env message⟩
  cases hinv : env.invoke (chatPrompt env message) with
  | ok out =>
    rw [chatPrompt] at hinv
    simp [chat, chatPrompt, hng, hinv]
  | error e =>
    rw [chatPrompt] at hinv
    simp [chat, chatPrompt, hng, hinv]

/-- Witness for the amended C2 at the full-overlap environment. -/
theorem claim_c2_no_topic_exclusion_witness :
    Effect.modelCall (chatPrompt envWhoChunk msgWho) ∈ (chat envWhoChunk msgWho).2 ∧
    ∀ chunk ∈ (chatChunks envWhoChunk msgWho).1,
      chunk.text.data <:+: (chatPrompt envWhoChunk msgWho).data :=
  claim_c2_no_topic_exclusion envWhoChunk msgWho (by decide)

/-- C10: an entry of the `sources` list reports `score = null` exactly when
the chunk's score is absent or exactly `0` (the Python code tests
`chunk.get("score")` for truthiness, not presence), reports any nonzero
score rounded to four decimal places, and the `sources` list of a normal
`/chat` response is built entrywise by `buildSource`. -/
theorem claim_c10_score_truthiness (i : Nat) (chunk : Chunk) :
    ((chunk.score = none ∨ chunk.score = some 0) →
      (buildSource i chunk).score = none) ∧
    (∀ q : ℚ, chunk.score = some q → q ≠ 0 →
      (buildSource i chunk).score = some (pyRound4 q)) ∧
    (∀ env message out,
      pyContains (pyLower message.text) "glauco" = false →
      env.invoke (chatPrompt env message) = Except.ok out →
      (chatChunks env message).1 ≠ [] →
      (chat env message).1.sources =
        some ((chatChunks env message).1.enum.map
          (fun p => buildSource p.1 p.2))) := by
  refine ⟨?_, ?_, ?_⟩
  · rintro (h | h) <;> simp [buildSource, h]
  · intro q hq hqz
    simp [buildSource, hq, hqz]
  · intro env message out hng hok hne
    rw [chatPrompt] at hok
    simp [chat, hng, hok, hne]

/-- Witness for C10: a zero score is reported as `null`, a nonzero score is
reported rounded, and the response of a concrete normal request carries the
`buildSource` list. -/
theorem claim_c10_score_truthiness_witness :
    (buildSource 0 { text := "t", score := some 0, metadata := [] }).score =
      none ∧
    (buildSource 0 { text := "t", score := some (3/7), metadata := [] }).score =
      some (pyRound4 (3/7)) ∧
    (chat envOneChunk msgArrakis).1.sources =
      some ((chatChunks envOneChunk msgArrakis).1.enum.map
        (fun p => buildSource p.1 p.2)) :=
  ⟨(claim_c10_score_truthiness 0 _).1 (Or.inr rfl),
    (claim_c10_score_truthiness 0 _).2.1 (3/7) rfl (by norm_num),
    (claim_c10_score_truthiness 0
      { text := "t", score := some 0, metadata := [] }).2.2 envOneChunk
      msgArrakis "Melange." (by decide) rfl (by decide)⟩

/-! ## The lexical-overlap ratio of the spec's relevance gate

The relevance gate described in the spec (substantiality filter, lexical
overlap filter, topic-exclusion filter) is implemented nowhere under the
repository's source tree: the `/chat` handlers use every retrieved chunk
unconditionally.  The overlap ratio is therefore modelled from the spec's
own words so that the claimed algebraic property can be examined. -/

/-- Tokenizer accumulator: split a lowercased character stream into maximal
alphanumeric runs. -/
def wordTokensAux : List Char → List Char → List (List Char)
  | [], acc => if acc = [] then [] else [acc.reverse]
  | c :: rest, acc =>
    if c.isAlphanum then wordTokensAux rest (c :: acc)
    else if acc = [] then wordTokensAux rest []
    else acc.reverse :: wordTokensAux rest []

/-- Modelled from the spec: word tokens of a text, case-insensitively —
the spec's "tokenize the question into word tokens" with "whole words,
case-insensitive" matching; no implementation exists in the source tree. -/
def wordTokens (s : String) : List String :=
  (wordTokensAux (pyLower s).data []).map (fun w => ⟨w⟩)

/-- Modelled from the spec: the question's distinct word tokens after
stop-word removal. -/
def questionTokens (stopWords : List String) (question : String) : List String :=
  ((wordTokens question).filter (fun t => !stopWords.contains t)).dedup

/-- Modelled from the spec: the fraction of remaining question tokens that
also appear (as whole words, case-insensitively) in the context text; an
empty question-token set yields ratio 0 (treated as not relevant). -/
def overlapRatio (stopWords : List String) (question context : String) : ℚ :=
  let qtokens := questionTokens stopWords question
  if qtokens = [] then 0
  else ((qtokens.filter (fun t => decide (t ∈ wordTokens context))).length : ℚ) /
    (qtokens.length : ℚ)

/-- C8: the lexical-overlap ratio of the spec's relevance gate is monotone in
the context: a context whose word-token set contains that of another —
in particular one obtained by adding more of the question's distinct words
verbatim — never has a smaller ratio. -/
theorem claim_c8_overlap_monotone (stopWords : List String)
    (question c1 c2 : String)
    (hsub : ∀ t ∈ wordTokens c1, t ∈ wordTokens c2) :
    overlapRatio stopWords question c1 ≤ overlapRatio stopWords question c2 := by
  unfold overlapRatio
  by_cases hq : questionTokens stopWords question = []
  · simp [hq]
  · simp only [hq, if_false]
    have hmono : ((questionTokens stopWords question).filter
          (fun t => decide (t ∈ wordTokens c1))).length ≤
        ((questionTokens stopWords question).filter
          (fun t => decide (t ∈ wordTokens c2))).length := by
      refine List.Sublist.length_le (List.monotone_filter_right _ ?_)
      intro a ha
      rw [decide_eq_true_iff] at ha ⊢
      exact hsub a ha
    have hpos : (0 : ℚ) < ((questionTokens stopWords question).length : ℚ) := by
      have h0 : 0 < (questionTokens stopWords question).length :=
        List.length_pos.mpr hq
      exact_mod_cast h0
    rw [div_le_div_iff_of_pos_right hpos]
    exact_mod_cast hmono

/-- Witness for C8: adding the question's words `what` and `is` to the
context raises the ratio (hypothesis checked by evaluation). -/
theorem claim_c8_overlap_monotone_witness :
    overlapRatio ["the"] "what is the spice" "spice dust" ≤
      overlapRatio ["the"] "what is the spice" "spice dust what is" :=
  claim_c8_overlap_monotone ["the"] "what is the spice" "spice dust"
    "spice dust what is" (by decide)

end ChatGPDune
